import Mathlib

/-!
Verification development for the multi-provider LLM gateway of this
repository.  Two implementations are embedded:

* `Providers` — the `LLMManager` and provider classes of
  `src/src/llm/llm_providers.py`;
* `Gateway` — the `LLMGateway` of `src/backend/services/llm_gateway.py`.

External effects (vendor HTTP calls, the GPTCache backend) are modelled as
explicit inputs: each vendor call outcome is a field of a `World` value, and
the cache is an explicit association list threaded through the functions.
Python floats are modelled as exact rationals; wall-clock fields
(`duration_seconds`, `timestamp`) are omitted since no claim concerns them.
-/

/-- View of an `Except` value as a sum, used to decide equality. -/
def exceptToSum {ε α : Type} : Except ε α → ε ⊕ α
  | Except.error e => Sum.inl e
  | Except.ok a => Sum.inr a

instance {ε α : Type} [DecidableEq ε] [DecidableEq α] : DecidableEq (Except ε α) := fun a b =>
  decidable_of_iff (exceptToSum a = exceptToSum b) (by
    cases a <;> cases b <;> simp [exceptToSum])

/-- One chat message (`{role, content}` dict in the source). -/
structure Message where
  role : String
  content : String
deriving DecidableEq, Repr

/-- Token usage triple, as the `usage` dicts built by the providers. -/
structure Usage where
  prompt_tokens : Nat
  completion_tokens : Nat
  total_tokens : Nat
deriving DecidableEq, Repr

namespace Providers

/-- The `LLMResponse` dataclass of `llm_providers.py` (time-free fields). -/
structure LLMResponse where
  content : String
  usage : Usage
  model : String
  provider : String
  cost : ℚ
deriving DecidableEq, Repr

/-- The recurring per-provider cost computation
`usage["prompt_tokens"] * costs["input"] + usage["completion_tokens"] * costs["output"]`
(lines 88-90, 287-288 and 372-373 of `llm_providers.py`), with
`costs = (input_cost_per_token, output_cost_per_token)`. -/
def usageCost (costs : ℚ × ℚ) (prompt_tokens completion_tokens : Nat) : ℚ :=
  (prompt_tokens : ℚ) * costs.1 + (completion_tokens : ℚ) * costs.2

/-- Embedding of `AzureOpenAIProvider.get_cost_per_token`: `{"input": 0.00003, "output": 0.00006}`. -/
def costPerTokenAzure : ℚ × ℚ := (3 / 100000, 6 / 100000)

/-- Embedding of `GroqProvider.get_cost_per_token`: `{"input": 0.00000018, "output": 0.00000018}`. -/
def costPerTokenGroq : ℚ × ℚ := (18 / 100000000, 18 / 100000000)

/-- Vendor-reported usage dict: each field may be absent (`usage.get(k, 0)`). -/
structure VendorUsage where
  prompt_tokens : Option Nat
  completion_tokens : Option Nat
  total_tokens : Option Nat
deriving DecidableEq, Repr

/-- Usage dict built by `GroqProvider.generate_response` (lines 292-296):
every field is read from the vendor payload with default `0`. -/
def groqUsage (u : VendorUsage) : Usage :=
  { prompt_tokens := u.prompt_tokens.getD 0
    completion_tokens := u.completion_tokens.getD 0
    total_tokens := u.total_tokens.getD 0 }

/-- Usage dict built by `OllamaProvider.generate_response` (lines 228-232):
the total is computed as `prompt_eval_count + eval_count`. -/
def ollamaUsage (prompt_eval_count eval_count : Option Nat) : Usage :=
  { prompt_tokens := prompt_eval_count.getD 0
    completion_tokens := eval_count.getD 0
    total_tokens := prompt_eval_count.getD 0 + eval_count.getD 0 }

/-- The `LLMResponse` built by `GroqProvider.generate_response` from a decoded
vendor payload (content plus usage dict). -/
def groqResponse (content : String) (model_name : String) (u : VendorUsage) : LLMResponse :=
  { content := content
    usage := groqUsage u
    model := model_name
    provider := "groq"
    cost := usageCost costPerTokenGroq (u.prompt_tokens.getD 0) (u.completion_tokens.getD 0) }

/-- Abstract behaviour of one provider object for the request under
consideration: its `is_available()` answer and the outcome of its
`generate_response` coroutine (`.error` = the raised exception's message). -/
structure ProviderStub where
  is_available : Bool
  gen : Except String LLMResponse
deriving DecidableEq, Repr

/-- Dictionary lookup `self.providers[name]` / `name in self.providers`,
with the dict modelled as an association list. -/
def lookupStub : List (String × ProviderStub) → String → Option ProviderStub
  | [], _ => none
  | p :: rest, name => if p.1 = name then some p.2 else lookupStub rest name

/-- The hard-coded priority list of `LLMManager._determine_fallback_order`. -/
def priority_order : List String :=
  ["google_gemini", "ollama", "openrouter", "groq", "azure_openai"]

/-- Embedding of `LLMManager._determine_fallback_order`: the priority names whose
provider is available, in priority order. -/
def determine_fallback_order (providers : List (String × ProviderStub)) : List String :=
  priority_order.filter fun n =>
    match lookupStub providers n with
    | some s => s.is_available
    | none => false

/-- The `providers_to_try` list of `LLMManager.generate_response` (line 424-425):
`[preferred_provider] if preferred_provider else []` then
`extend(self.fallback_order)`.  A `None` or empty-string preferred provider
is falsy in Python and contributes nothing. -/
def providers_to_try (fallback_order : List String) (preferred : Option String) : List String :=
  (match preferred with
   | some p => if p = "" then [] else [p]
   | none => []) ++ fallback_order

/-- Full observable outcome of one `LLMManager.generate_response` call:
the returned value or raised terminal error (`.error last_error`, the
`last_error` variable at the final `raise`), the providers whose
`generate_response` was actually invoked (in order), and the `(name, error)`
pairs of the failed attempts (in order). -/
structure MgrOutcome where
  result : Except (Option String) LLMResponse
  calls : List String
  failures : List (String × String)
deriving DecidableEq, Repr

/-- The provider loop of `LLMManager.generate_response` (lines 429-446):
skip falsy or unknown names, skip unavailable providers, return on the first
success, record the error and continue on failure. -/
def mgrLoop (providers : List (String × ProviderStub)) :
    List String → Option String → List String → List (String × String) → MgrOutcome
  | [], last_error, calls, failures => ⟨Except.error last_error, calls, failures⟩
  | name :: rest, last_error, calls, failures =>
    if name = "" then
      mgrLoop providers rest last_error calls failures
    else
      match lookupStub providers name with
      | none => mgrLoop providers rest last_error calls failures
      | some stub =>
        if stub.is_available then
          match stub.gen with
          | Except.ok resp => ⟨Except.ok resp, calls ++ [name], failures⟩
          | Except.error e =>
              mgrLoop providers rest (some e) (calls ++ [name]) (failures ++ [(name, e)])
        else
          mgrLoop providers rest last_error calls failures

/-- Embedding of `LLMManager.generate_response` (lines 420-449). -/
def generate_response (providers : List (String × ProviderStub))
    (fallback_order : List String) (preferred : Option String) : MgrOutcome :=
  mgrLoop providers (providers_to_try fallback_order preferred) none [] []

/-- Python `str()` of the `last_error` variable (an `Option`al exception). -/
def pyStrOption : Option String → String
  | none => "None"
  | some e => e

/-- Message of the exception raised when every candidate failed:
`f"All LLM providers failed. Last error: {last_error}"` (line 449). -/
def raisedMessage (last_error : Option String) : String :=
  "All LLM providers failed. Last error: " ++ pyStrOption last_error

end Providers

/-- Predicate `leadsList needle hay`: `needle` is an initial segment of `hay`. -/
def leadsList : List Char → List Char → Bool
  | [], _ => true
  | _ :: _, [] => false
  | a :: as, b :: bs => a = b && leadsList as bs

/-- Predicate `occursIn needle hay`: `needle` occurs contiguously inside `hay`. -/
def occursIn (needle : List Char) : List Char → Bool
  | [] => leadsList needle []
  | b :: bs => leadsList needle (b :: bs) || occursIn needle bs

/-- A string mentions another if it contains it contiguously. -/
def mentions (needle haystack : String) : Bool :=
  occursIn needle.data haystack.data

namespace Gateway

/-- The `LLMProvider` class of `llm_gateway.py` (lines 76-86): static per-provider
configuration; `is_available = bool(api_key)`. -/
structure GwProvider where
  name : String
  model : String
  cost_per_1k_tokens : ℚ
  is_available : Bool
deriving DecidableEq, Repr

/-- The settings fields consulted by `LLMGateway._init_providers`. -/
structure Settings where
  google_gemini_api_key : Option String
  openai_api_key : Option String
  azure_openai_api_key : Option String
  azure_openai_endpoint : Option String
  openrouter_api_key : Option String
deriving DecidableEq, Repr

/-- Python truthiness of an optional string (`if self.settings.x:`). -/
def truthy : Option String → Bool
  | none => false
  | some s => s ≠ ""

/-- Embedding of `LLMGateway._init_providers` (lines 112-168): builds the provider dict
and appends to `fallback_order` in the same conditional blocks. -/
def init_providers (s : Settings) : List (String × GwProvider) × List String :=
  let step1 : List (String × GwProvider) × List String :=
    if truthy s.google_gemini_api_key then
      ([("gemini", ⟨"Google Gemini", "gemini/gemini-1.5-flash", 0, truthy s.google_gemini_api_key⟩)],
       ["gemini"])
    else ([], [])
  let step2 : List (String × GwProvider) × List String :=
    if truthy s.openai_api_key then
      (step1.1 ++ [("openai", ⟨"OpenAI GPT-4", "gpt-4o-mini", 30 / 100, truthy s.openai_api_key⟩)],
       step1.2 ++ ["openai"])
    else step1
  let step3 : List (String × GwProvider) × List String :=
    if truthy s.azure_openai_api_key && truthy s.azure_openai_endpoint then
      (step2.1 ++ [("azure_openai",
          ⟨"Azure OpenAI", "azure/gpt-4o-2024-08-06", 30 / 100, truthy s.azure_openai_api_key⟩)],
       step2.2 ++ ["azure_openai"])
    else step2
  if truthy s.openrouter_api_key then
    (step3.1 ++
       [("openrouter_cheap",
           ⟨"OpenRouter (Cheap)", "openrouter/meta-llama/llama-3.1-8b-instruct:free", 0,
            truthy s.openrouter_api_key⟩),
        ("openrouter_premium",
           ⟨"OpenRouter (Premium)", "openrouter/anthropic/claude-3.5-sonnet", 3,
            truthy s.openrouter_api_key⟩)],
     step3.2 ++ ["openrouter_cheap", "openrouter_premium"])
  else step3

/-- Dict lookup `self.providers[name]` / `name in self.providers`. -/
def lookupGw : List (String × GwProvider) → String → Option GwProvider
  | [], _ => none
  | p :: rest, name => if p.1 = name then some p.2 else lookupGw rest name

/-- A successful vendor completion as consumed by
`_handle_non_streaming_response` (content and usage of the LiteLLM reply). -/
structure Completion where
  content : String
  prompt_tokens : Nat
  completion_tokens : Nat
  total_tokens : Nat
deriving DecidableEq, Repr

/-- The response dict built at lines 349-361 (time-free fields). -/
structure GwResult where
  content : String
  provider : String
  model : String
  usage : Usage
  cost : ℚ
deriving DecidableEq, Repr

/-- The GPTCache store, modelled as an association list from the exact
prompt-text key to the stored response dict. -/
abbrev Cache := List (String × GwResult)

/-- The prompt-text key `" ".join([msg.get("content", "") for msg in messages])` (lines 277, 366). -/
def promptText (messages : List Message) : String :=
  String.intercalate " " (messages.map fun m => m.content)

/-- Embedding of `LLMGateway._get_from_semantic_cache` (lines 375-393): an exact lookup on
the prompt text.  The `model` argument is accepted and ignored, as in the
source. -/
def get_from_semantic_cache : Cache → String → String → Option GwResult
  | [], _, _ => none
  | e :: rest, prompt_text, model =>
    if e.1 = prompt_text then some e.2 else get_from_semantic_cache rest prompt_text model

/-- Embedding of `LLMGateway._store_in_semantic_cache` (lines 395-410):
`cache.put(prompt_text, response)`.  The `model` argument is accepted and
ignored, as in the source. -/
def store_in_semantic_cache (cache : Cache) (prompt_text : String) (model : String)
    (response : GwResult) : Cache :=
  (prompt_text, response) :: cache

/-- Embedding of `LLMGateway._calculate_cost` (lines 462-468):
`0` when usage is missing or the rate is `0`, else
`(usage.total_tokens / 1000) * cost_per_1k_tokens`. -/
def calculate_cost (cfg : GwProvider) (usage : Option Usage) : ℚ :=
  match usage with
  | none => 0
  | some u =>
    if cfg.cost_per_1k_tokens = 0 then 0
    else ((u.total_tokens : ℚ) / 1000) * cfg.cost_per_1k_tokens

/-- Embedding of `LLMGateway._calculate_cost_from_tokens` (lines 470-475). -/
def calculate_cost_from_tokens (cfg : GwProvider) (tokens : Nat) : ℚ :=
  if cfg.cost_per_1k_tokens = 0 then 0
  else ((tokens : ℚ) / 1000) * cfg.cost_per_1k_tokens

/-- The result dict a successful `_handle_non_streaming_response` builds from
a vendor completion (lines 342-361). -/
def buildResult (cfg : GwProvider) (comp : Completion) : GwResult :=
  { content := comp.content
    provider := cfg.name
    model := cfg.model
    usage := ⟨comp.prompt_tokens, comp.completion_tokens, comp.total_tokens⟩
    cost := calculate_cost cfg (some ⟨comp.prompt_tokens, comp.completion_tokens, comp.total_tokens⟩) }

/-- The external environment of one request: per-model vendor outcomes
(`acompletion`), whether a cache object was initialised
(`self.semantic_cache` non-`None`), and whether the cache backend raises on
`get` / `put`. -/
structure World where
  vendor : String → Except String Completion
  cacheEnabled : Bool
  getRaises : Bool
  putRaises : Bool

/-- Observable outcome of one `_call_provider` call: the returned value or
raised error, the cache afterwards, and how many vendor calls were made. -/
structure CallOut where
  result : Except String GwResult
  cache : Cache
  vendorCalls : Nat
deriving DecidableEq, Repr

/-- Embedding of `_handle_non_streaming_response` (lines 329-373): perform the vendor
call, build the result, and attempt the cache write, a failure of which is
only logged (lines 363-369). -/
def handle_non_streaming_response (w : World) (cache : Cache) (cfg : GwProvider)
    (messages : List Message) (use_cache : Bool) : Except String GwResult × Cache :=
  match w.vendor cfg.model with
  | Except.error e => (Except.error e, cache)
  | Except.ok comp =>
    (Except.ok (buildResult cfg comp),
     if use_cache && w.cacheEnabled then
       if w.putRaises then cache
       else store_in_semantic_cache cache (promptText messages) cfg.model (buildResult cfg comp)
     else cache)

/-- Embedding of `_call_provider` for a non-streaming request (lines 260-327): consult the
semantic cache first (lookup failures are only logged and fall through to a
miss), then delegate to `_handle_non_streaming_response`. -/
def call_provider (w : World) (cache : Cache) (cfg : GwProvider)
    (messages : List Message) (use_cache stream : Bool) : CallOut :=
  if use_cache && !stream && w.cacheEnabled then
    if w.getRaises then
      ⟨(handle_non_streaming_response w cache cfg messages use_cache).1,
       (handle_non_streaming_response w cache cfg messages use_cache).2, 1⟩
    else
      match get_from_semantic_cache cache (promptText messages) cfg.model with
      | some r => ⟨Except.ok r, cache, 0⟩
      | none =>
        ⟨(handle_non_streaming_response w cache cfg messages use_cache).1,
         (handle_non_streaming_response w cache cfg messages use_cache).2, 1⟩
  else
    ⟨(handle_non_streaming_response w cache cfg messages use_cache).1,
     (handle_non_streaming_response w cache cfg messages use_cache).2, 1⟩

/-- The errors `LLMGateway.generate_response` itself can raise:
`ValueError("No LLM providers available")` (line 233),
`Exception("All LLM providers failed")` (line 258), and the uncaught
`KeyError` of `self.providers[provider_name]` (line 237, outside the `try`). -/
inductive GwError
  | noProviders
  | allFailed
  | keyError (name : String)
deriving DecidableEq, Repr

/-- Observable outcome of one `LLMGateway.generate_response` call: the
returned value or raised error, the cache afterwards, the providers for
which `_call_provider` was entered (in order), and the number of vendor
calls made. -/
structure GwOutcome where
  result : Except GwError GwResult
  cache : Cache
  attempted : List String
  vendorCalls : Nat
deriving DecidableEq, Repr

/-- The provider loop of `LLMGateway.generate_response` (lines 236-258):
resolve the name (a missing name raises `KeyError` outside the `try`), skip
unavailable providers, return on the first `_call_provider` success, and
continue on any exception. -/
def gwLoop (w : World) (providers : List (String × GwProvider)) (messages : List Message)
    (use_cache : Bool) :
    List String → Cache → List String → Nat → GwOutcome
  | [], cache, att, n => ⟨Except.error GwError.allFailed, cache, att, n⟩
  | name :: rest, cache, att, n =>
    match lookupGw providers name with
    | none => ⟨Except.error (GwError.keyError name), cache, att, n⟩
    | some cfg =>
      if cfg.is_available then
        match (call_provider w cache cfg messages use_cache false).result with
        | Except.ok r =>
            ⟨Except.ok r, (call_provider w cache cfg messages use_cache false).cache,
             att ++ [name], n + (call_provider w cache cfg messages use_cache false).vendorCalls⟩
        | Except.error _ =>
            gwLoop w providers messages use_cache rest
              (call_provider w cache cfg messages use_cache false).cache (att ++ [name])
              (n + (call_provider w cache cfg messages use_cache false).vendorCalls)
      else
        gwLoop w providers messages use_cache rest cache att n

/-- The attempt order chosen at lines 226-230: the preferred provider alone
when it is truthy and known, else the configured fallback order. -/
def gwOrder (providers : List (String × GwProvider)) (fallback_order : List String)
    (preferred : Option String) : List String :=
  match preferred with
  | some p => if p ≠ "" && (lookupGw providers p).isSome then [p] else fallback_order
  | none => fallback_order

/-- Embedding of `LLMGateway.generate_response` for a non-streaming request
(lines 213-258). -/
def generate_response (w : World) (providers : List (String × GwProvider))
    (fallback_order : List String) (preferred : Option String)
    (messages : List Message) (use_cache : Bool) (cache : Cache) : GwOutcome :=
  if gwOrder providers fallback_order preferred = [] then
    ⟨Except.error GwError.noProviders, cache, [], 0⟩
  else
    gwLoop w providers messages use_cache (gwOrder providers fallback_order preferred) cache [] 0

/-- Whether the loop would attempt candidate `name`: it resolves to an
available provider. -/
def availableB (providers : List (String × GwProvider)) (name : String) : Bool :=
  match lookupGw providers name with
  | some cfg => cfg.is_available
  | none => false

/-- Events yielded by `_handle_streaming_response` (lines 412-460). -/
inductive StreamEvent
  | chunk (content provider model : String)
  | final (full_content provider model : String) (estimated_tokens : Nat) (estimated_cost : ℚ)
  | streamError (error provider : String)
deriving DecidableEq, Repr

/-- Python truthiness of `chunk.choices[0].delta.content` (line 425):
`None` and the empty string are skipped. -/
def truthyDelta : Option String → Option String
  | none => none
  | some s => if s = "" then none else some s

/-- The chunk loop plus final event of `_handle_streaming_response`
(lines 424-453), accumulating `full_content`. -/
def streamLoop (cfg : GwProvider) : List (Option String) → String → List StreamEvent
  | [], full_content =>
    [StreamEvent.final full_content cfg.name cfg.model (full_content.length / 4)
       (calculate_cost_from_tokens cfg (full_content.length / 4))]
  | d :: rest, full_content =>
    match truthyDelta d with
    | some s => StreamEvent.chunk s cfg.name cfg.model :: streamLoop cfg rest (full_content ++ s)
    | none => streamLoop cfg rest full_content

/-- The chunk events alone, for a stream interrupted by an exception. -/
def streamChunksOnly (cfg : GwProvider) : List (Option String) → List StreamEvent
  | [] => []
  | d :: rest =>
    match truthyDelta d with
    | some s => StreamEvent.chunk s cfg.name cfg.model :: streamChunksOnly cfg rest
    | none => streamChunksOnly cfg rest

/-- Embedding of `_handle_streaming_response` (lines 412-460): the vendor stream is
modelled as the list of chunk deltas plus an optional trailing exception;
on an exception a single error event replaces the final event. -/
def handle_streaming_response (cfg : GwProvider) (deltas : List (Option String))
    (failure : Option String) : List StreamEvent :=
  match failure with
  | some e => streamChunksOnly cfg deltas ++ [StreamEvent.streamError e cfg.name]
  | none => streamLoop cfg deltas ""

/-- The deltas of the chunk events of an event list, in order. -/
def chunkDeltas : List StreamEvent → List String
  | [] => []
  | StreamEvent.chunk c _ _ :: rest => c :: chunkDeltas rest
  | _ :: rest => chunkDeltas rest

/-- The contents of the final events of an event list, in order. -/
def finalContents : List StreamEvent → List String
  | [] => []
  | StreamEvent.final fc _ _ _ _ :: rest => fc :: finalContents rest
  | _ :: rest => finalContents rest

end Gateway

/-- Concatenation of a list of strings, in order. -/
def concatAll : List String → String
  | [] => ""
  | s :: rest => s ++ concatAll rest

/-- Helper `exceptFails e` is true exactly when `e` is an error. -/
def exceptFails {ε α : Type} : Except ε α → Bool
  | Except.error _ => true
  | Except.ok _ => false

/-- The error of the last recorded `(name, error)` pair, if any. -/
def lastSnd (failures : List (String × String)) : Option String :=
  failures.getLast?.map Prod.snd

/-- A sample stored response used in cache scenarios. -/
def exResult : Gateway.GwResult :=
  { content := "cached answer", provider := "P1", model := "m1", usage := ⟨1, 2, 3⟩, cost := 0 }

/-- World for the cross-model cache scenario: the vendor answers for model
`m1` and fails for everything else; the cache backend works. -/
def exWorldC4 : Gateway.World :=
  { vendor := fun m =>
      if m = "m1" then Except.ok ⟨"hello from m1", 10, 5, 15⟩ else Except.error "no vendor"
    cacheEnabled := true
    getRaises := false
    putRaises := false }

/-- Provider configured for model `m1`. -/
def exCfgM1 : Gateway.GwProvider := ⟨"P1", "m1", 0, true⟩

/-- Provider configured for model `m2`. -/
def exCfgM2 : Gateway.GwProvider := ⟨"P2", "m2", 0, true⟩

/-- A one-message request. -/
def exMsgs : List Message := [⟨"user", "deploy a cluster"⟩]

/-- A candidate name is attemptable when it is truthy and resolves to an
available provider. -/
def mgrAttemptable (providers : List (String × Providers.ProviderStub)) (name : String) : Bool :=
  name ≠ "" &&
    (match Providers.lookupStub providers name with
     | some s => s.is_available
     | none => false)

/-- Two providers, both available, both failing. -/
def exMgrProviders : List (String × Providers.ProviderStub) :=
  [("google_gemini", ⟨true, Except.error "boom1"⟩), ("ollama", ⟨true, Except.error "boom2"⟩)]

/-- Outcome of a no-preference request against `exMgrProviders`. -/
def exC1out : Providers.MgrOutcome :=
  Providers.generate_response exMgrProviders ["google_gemini", "ollama"] none

/-- Two available gateway providers in configured fallback order. -/
def exGwProviders : List (String × Gateway.GwProvider) :=
  [("gemini", ⟨"Google Gemini", "gemini/gemini-1.5-flash", 0, true⟩),
   ("openai", ⟨"OpenAI GPT-4", "gpt-4o-mini", 0, true⟩)]

/-- World in which every vendor call fails. -/
def exGwWorldFail : Gateway.World :=
  { vendor := fun _ => Except.error "503 from vendor"
    cacheEnabled := false
    getRaises := false
    putRaises := false }

/-- World in which the gemini model fails and the openai model succeeds. -/
def exGwWorldSplit : Gateway.World :=
  { vendor := fun m =>
      if m = "gpt-4o-mini" then Except.ok ⟨"ok from openai", 1, 2, 3⟩
      else Except.error "gemini down"
    cacheEnabled := false
    getRaises := false
    putRaises := false }

/-- Outcome of a request preferring `gemini` against the split world. -/
def exC2out : Gateway.GwOutcome :=
  Gateway.generate_response exGwWorldSplit exGwProviders ["gemini", "openai"] (some "gemini")
    exMsgs true []

/-- Outcome of a request against an empty provider configuration. -/
def exC6out : Gateway.GwOutcome :=
  Gateway.generate_response exGwWorldFail [] [] none exMsgs true []

/-- World for the cache-idempotence witness. -/
def exW5 : Gateway.World :=
  { vendor := fun m => if m = "m1" then Except.ok ⟨"hi", 1, 2, 3⟩ else Except.error "down"
    cacheEnabled := true
    getRaises := false
    putRaises := false }

/-- World whose cache lookup raises. -/
def exW8a : Gateway.World :=
  { vendor := fun _ => Except.ok ⟨"hi", 1, 2, 3⟩
    cacheEnabled := true
    getRaises := true
    putRaises := false }

/-- World whose cache write raises. -/
def exW8b : Gateway.World :=
  { vendor := fun _ => Except.ok ⟨"hi", 1, 2, 3⟩
    cacheEnabled := true
    getRaises := false
    putRaises := true }

/-- A lookup result does not depend on the ignored `model` argument. -/
lemma get_model_irrelevant (cache : Gateway.Cache) (pt m m' : String) :
    Gateway.get_from_semantic_cache cache pt m = Gateway.get_from_semantic_cache cache pt m' := by
  induction cache with
  | nil => rfl
  | cons e rest ih =>
    by_cases h : e.1 = pt <;> simp [Gateway.get_from_semantic_cache, h, ih]

/-- A hit returns only a value stored under exactly the request's key. -/
lemma get_mem (cache : Gateway.Cache) (pt m : String) (r : Gateway.GwResult) :
    Gateway.get_from_semantic_cache cache pt m = some r → (pt, r) ∈ cache := by
  induction cache with
  | nil => intro h; simp [Gateway.get_from_semantic_cache] at h
  | cons e rest ih =>
    intro h
    by_cases he : e.1 = pt
    · simp [Gateway.get_from_semantic_cache, he] at h
      have hpe : (pt, r) = e := by
        cases e
        simp_all
      rw [hpe]
      exact List.mem_cons_self _ _
    · simp [Gateway.get_from_semantic_cache, he] at h
      right
      exact ih h

/-- C3: the computed cost of a non-streaming response follows the formula
`(promptTokens / 1000) * costPerThousandInputTokens +
 (completionTokens / 1000) * costPerThousandOutputTokens`: the per-token
provider computation equals this formula with per-thousand rates
`1000 * per-token rate`; the cited instance (100/50 tokens at 0.03/0.06 per
thousand) is exactly `0.006`; a descriptor with both cost fields zero yields
cost `0` for all token counts; and the gateway's blended
`_calculate_cost` agrees with the formula whenever the reported total is the
sum of the parts. -/
theorem C3_cost_formula :
    (∀ (ci co : ℚ) (p c : Nat),
        Providers.usageCost (ci, co) p c =
          ((p : ℚ) / 1000) * (1000 * ci) + ((c : ℚ) / 1000) * (1000 * co))
  ∧ Providers.usageCost Providers.costPerTokenAzure 100 50 = 6 / 1000
  ∧ (∀ p c : Nat, Providers.usageCost (0, 0) p c = 0)
  ∧ (∀ (cfg : Gateway.GwProvider) (u : Usage),
        u.total_tokens = u.prompt_tokens + u.completion_tokens →
        Gateway.calculate_cost cfg (some u) =
          ((u.prompt_tokens : ℚ) / 1000) * cfg.cost_per_1k_tokens +
          ((u.completion_tokens : ℚ) / 1000) * cfg.cost_per_1k_tokens) := by
  refine ⟨?_, ?_, ?_, ?_⟩
  · intro ci co p c
    unfold Providers.usageCost
    field_simp
    ring
  · norm_num [Providers.usageCost, Providers.costPerTokenAzure]
  · intro p c
    simp [Providers.usageCost]
  · intro cfg u h
    unfold Gateway.calculate_cost
    by_cases hz : cfg.cost_per_1k_tokens = 0
    · simp [hz]
    · simp only [if_neg hz]
      rw [h]
      push_cast
      ring

/-- Witness for C3 at a concrete provider and usage. -/
theorem C3_cost_formula_witness :
    Gateway.calculate_cost ⟨"OpenAI GPT-4", "gpt-4o-mini", 30 / 100, true⟩ (some ⟨100, 50, 150⟩) =
      ((100 : ℚ) / 1000) * (30 / 100) + ((50 : ℚ) / 1000) * (30 / 100) :=
  C3_cost_formula.2.2.2 ⟨"OpenAI GPT-4", "gpt-4o-mini", 30 / 100, true⟩ ⟨100, 50, 150⟩ (by decide)

/-- C9 (amended): `OllamaProvider` computes `totalTokens` as the sum of the
prompt and completion counts, so the invariant holds for its responses;
`GroqProvider` and the gateway's `_handle_non_streaming_response` report the
vendor-supplied total verbatim. -/
theorem C9_amended :
    (∀ p c : Option Nat,
        (Providers.ollamaUsage p c).total_tokens =
          (Providers.ollamaUsage p c).prompt_tokens + (Providers.ollamaUsage p c).completion_tokens)
  ∧ (∀ u : Providers.VendorUsage, (Providers.groqUsage u).total_tokens = u.total_tokens.getD 0)
  ∧ (∀ (cfg : Gateway.GwProvider) (comp : Gateway.Completion),
        (Gateway.buildResult cfg comp).usage.total_tokens = comp.total_tokens) :=
  ⟨fun _ _ => rfl, fun _ => rfl, fun _ _ => rfl⟩

/-- C9 (counterexample): a Groq vendor payload that omits `total_tokens`
while reporting `prompt_tokens = 1` and `completion_tokens = 2` yields a
response with `total_tokens = 0 ≠ 1 + 2`. -/
theorem C9_counterexample :
    (Providers.groqResponse "ok" "llama-3.1-8b-instant" ⟨some 1, some 2, none⟩).usage.prompt_tokens = 1 ∧
    (Providers.groqResponse "ok" "llama-3.1-8b-instant" ⟨some 1, some 2, none⟩).usage.completion_tokens = 2 ∧
    (Providers.groqResponse "ok" "llama-3.1-8b-instant" ⟨some 1, some 2, none⟩).usage.total_tokens ≠
      (Providers.groqResponse "ok" "llama-3.1-8b-instant" ⟨some 1, some 2, none⟩).usage.prompt_tokens +
      (Providers.groqResponse "ok" "llama-3.1-8b-instant" ⟨some 1, some 2, none⟩).usage.completion_tokens := by
  decide

/-- Final-event content accumulates the chunk deltas emitted so far. -/
lemma streamLoop_final (cfg : Gateway.GwProvider) :
    ∀ (deltas : List (Option String)) (acc : String),
      Gateway.finalContents (Gateway.streamLoop cfg deltas acc) =
        [acc ++ concatAll (Gateway.chunkDeltas (Gateway.streamLoop cfg deltas acc))] := by
  intro deltas
  induction deltas with
  | nil =>
    intro acc
    simp [Gateway.streamLoop, Gateway.finalContents, Gateway.chunkDeltas, concatAll]
  | cons d rest ih =>
    intro acc
    cases h : Gateway.truthyDelta d with
    | none => simp [Gateway.streamLoop, h, ih]
    | some s =>
      simp only [Gateway.streamLoop, h, Gateway.finalContents, Gateway.chunkDeltas, concatAll, ih]
      rw [String.append_assoc]

/-- C7: for a successfully completed stream, the concatenation of the chunk
event deltas equals the content of the single terminal finalized event. -/
theorem C7_stream_concat :
    ∀ (cfg : Gateway.GwProvider) (deltas : List (Option String)),
      Gateway.finalContents (Gateway.handle_streaming_response cfg deltas none) =
        [concatAll (Gateway.chunkDeltas (Gateway.handle_streaming_response cfg deltas none))] := by
  intro cfg deltas
  have h := streamLoop_final cfg deltas ""
  simpa [Gateway.handle_streaming_response] using h

/-- C4 (amended): the cache key is the space-joined message contents only;
the `model` argument is ignored by both lookup and store, so a response
stored under one model is returned for the same prompt text under any other
model, while a hit only ever returns a value stored under exactly the
request's prompt-text key. -/
theorem C4_amended :
    (∀ (cache : Gateway.Cache) (pt m m' : String),
        Gateway.get_from_semantic_cache cache pt m = Gateway.get_from_semantic_cache cache pt m')
  ∧ (∀ (cache : Gateway.Cache) (pt m m' : String) (r : Gateway.GwResult),
        Gateway.get_from_semantic_cache
          (Gateway.store_in_semantic_cache cache pt m r) pt m' = some r)
  ∧ (∀ (cache : Gateway.Cache) (pt m : String) (r : Gateway.GwResult),
        Gateway.get_from_semantic_cache cache pt m = some r → (pt, r) ∈ cache) := by
  refine ⟨get_model_irrelevant, ?_, get_mem⟩
  intro cache pt m m' r
  simp [Gateway.get_from_semantic_cache, Gateway.store_in_semantic_cache]

/-- Witness for C4 (amended) at a concrete cache. -/
theorem C4_amended_witness :
    Gateway.get_from_semantic_cache
        (Gateway.store_in_semantic_cache [] "deploy a cluster" "m1" exResult)
        "deploy a cluster" "m2" = some exResult ∧
    ("deploy a cluster", exResult) ∈ [("deploy a cluster", exResult)] :=
  ⟨C4_amended.2.1 [] "deploy a cluster" "m1" "m2" exResult,
   C4_amended.2.2 [("deploy a cluster", exResult)] "deploy a cluster" "m2" exResult
     (by simp [Gateway.get_from_semantic_cache])⟩

/-- C4 (counterexample): a response produced and cached for model `m1` is
returned as a cache hit for a request with the same messages and the
different model `m2`, with no vendor call — refuting "a cache lookup never
returns a stored response for a different model/prompt pair". -/
theorem C4_counterexample :
    (Gateway.call_provider exWorldC4
        (Gateway.call_provider exWorldC4 [] exCfgM1 exMsgs true false).cache
        exCfgM2 exMsgs true false).result =
      Except.ok (Gateway.buildResult exCfgM1 ⟨"hello from m1", 10, 5, 15⟩) ∧
    (Gateway.buildResult exCfgM1 ⟨"hello from m1", 10, 5, 15⟩).model = "m1" ∧
    exCfgM2.model = "m2" ∧
    (Gateway.call_provider exWorldC4
        (Gateway.call_provider exWorldC4 [] exCfgM1 exMsgs true false).cache
        exCfgM2 exMsgs true false).vendorCalls = 0 := by
  decide

/-- A successful lookup returns a stored association. -/
lemma lookupStub_mem (providers : List (String × Providers.ProviderStub)) (name : String)
    (s : Providers.ProviderStub) :
    Providers.lookupStub providers name = some s → (name, s) ∈ providers := by
  induction providers with
  | nil => intro h; simp [Providers.lookupStub] at h
  | cons p rest ih =>
    intro h
    by_cases hp : p.1 = name
    · simp [Providers.lookupStub, hp] at h
      have hpe : (name, s) = p := by cases p; simp_all
      rw [hpe]
      exact List.mem_cons_self _ _
    · simp [Providers.lookupStub, hp] at h
      exact List.mem_cons_of_mem _ (ih h)

/-- When every available provider fails, the manager loop invokes exactly
the attemptable candidates, in order. -/
lemma mgrLoop_allfail_calls (providers : List (String × Providers.ProviderStub))
    (hfail : ∀ p ∈ providers, p.2.is_available = true → exceptFails p.2.gen = true) :
    ∀ (cands : List String) (le : Option String) (calls : List String)
      (fails : List (String × String)),
      (Providers.mgrLoop providers cands le calls fails).calls =
        calls ++ cands.filter (mgrAttemptable providers) := by
  intro cands
  induction cands with
  | nil => intro le calls fails; simp [Providers.mgrLoop]
  | cons name rest ih =>
    intro le calls fails
    by_cases hn : name = ""
    · simp [Providers.mgrLoop, hn, mgrAttemptable, ih]
    · cases hl : Providers.lookupStub providers name with
      | none => simp [Providers.mgrLoop, hn, hl, mgrAttemptable, ih]
      | some stub =>
        by_cases ha : stub.is_available = true
        · have hf := hfail (name, stub) (lookupStub_mem providers name stub hl) ha
          cases hg : stub.gen with
          | ok resp => rw [hg] at hf; simp [exceptFails] at hf
          | error e => simp [Providers.mgrLoop, hn, hl, ha, hg, mgrAttemptable, ih]
        · simp [Providers.mgrLoop, hn, hl, ha, mgrAttemptable, ih]

/-- The loop's terminal error is always the error of the last recorded
failure (or the inherited `last_error` when nothing more was recorded). -/
lemma mgrLoop_last_error (providers : List (String × Providers.ProviderStub)) :
    ∀ (cands : List String) (le : Option String) (calls : List String)
      (fails : List (String × String)),
      le = lastSnd fails →
      ∀ e, (Providers.mgrLoop providers cands le calls fails).result = Except.error e →
        e = lastSnd (Providers.mgrLoop providers cands le calls fails).failures := by
  intro cands
  induction cands with
  | nil =>
    intro le calls fails hinv e he
    injection he with h
    show e = lastSnd fails
    rw [← h]
    exact hinv
  | cons name rest ih =>
    intro le calls fails hinv e he
    by_cases hn : name = ""
    · simp only [Providers.mgrLoop, hn, if_pos rfl] at he ⊢
      exact ih le calls fails hinv e he
    · cases hl : Providers.lookupStub providers name with
      | none =>
        simp [Providers.mgrLoop, hn, hl] at he ⊢
        exact ih le calls fails hinv e he
      | some stub =>
        by_cases ha : stub.is_available = true
        · cases hg : stub.gen with
          | ok resp =>
            simp [Providers.mgrLoop, hn, hl, ha, hg] at he
          | error e0 =>
            simp [Providers.mgrLoop, hn, hl, ha, hg] at he ⊢
            exact ih (some e0) (calls ++ [name]) (fails ++ [(name, e0)])
              (by simp [lastSnd, List.getLast?_concat]) e he
        · simp [Providers.mgrLoop, hn, hl, ha] at he ⊢
          exact ih le calls fails hinv e he

/-- C1 (counterexample): with two available providers both failing, the loop
records two `(name, error)` pairs in attempt order, but the raised failure
message embeds only the last error: it mentions neither the first provider's
name nor its error detail, so the raised failure does not contain one entry
per attempted provider. -/
theorem C1_counterexample :
    exC1out.failures = [("google_gemini", "boom1"), ("ollama", "boom2")] ∧
    exC1out.result = Except.error (some "boom2") ∧
    mentions "boom1" (Providers.raisedMessage (some "boom2")) = false ∧
    mentions "google_gemini" (Providers.raisedMessage (some "boom2")) = false ∧
    ¬ (∀ entry ∈ exC1out.failures,
        mentions entry.1 (Providers.raisedMessage (some "boom2")) = true ∧
        mentions entry.2 (Providers.raisedMessage (some "boom2")) = true) := by
  decide

/-- C1 (amended): when the fallback loop exhausts all candidates without
success, the manager raises a single failure whose detail is only the last
recorded error — `"All LLM providers failed. Last error: {last_error}"`
where `last_error` is the error of the last failed attempt (`None` when no
provider was attempted) — not one `(name, error)` entry per attempted
provider. -/
theorem C1_amended :
    ∀ (providers : List (String × Providers.ProviderStub)) (fallback_order : List String)
      (preferred : Option String) (e : Option String),
      (Providers.generate_response providers fallback_order preferred).result = Except.error e →
      e = lastSnd (Providers.generate_response providers fallback_order preferred).failures ∧
      Providers.raisedMessage e = "All LLM providers failed. Last error: " ++
        Providers.pyStrOption
          (lastSnd (Providers.generate_response providers fallback_order preferred).failures) := by
  intro providers fallback_order preferred e he
  have h := mgrLoop_last_error providers
      (Providers.providers_to_try fallback_order preferred) none [] []
      (by simp [lastSnd]) e he
  exact ⟨h, by rw [h]; rfl⟩

/-- Witness for C1 (amended) at the concrete two-provider configuration. -/
theorem C1_amended_witness :
    (some "boom2") = lastSnd exC1out.failures ∧
    Providers.raisedMessage (some "boom2") = "All LLM providers failed. Last error: " ++
      Providers.pyStrOption (lastSnd exC1out.failures) :=
  C1_amended exMgrProviders ["google_gemini", "ollama"] none (some "boom2") (by decide)

/-- C10: in `LLMManager.generate_response`, a supplied preferred provider is
prepended to the full configured fallback order without deduplication, so
when it also appears in the fallback order, is available, and every
available provider's generate call raises, that provider is invoked at
least twice within the single request. -/
theorem C10_duplicate_billing :
    ∀ (providers : List (String × Providers.ProviderStub)) (fallback_order : List String)
      (preferred : String) (stub : Providers.ProviderStub),
      preferred ≠ "" →
      Providers.lookupStub providers preferred = some stub →
      stub.is_available = true →
      (∀ p ∈ providers, p.2.is_available = true → exceptFails p.2.gen = true) →
      preferred ∈ fallback_order →
      2 ≤ ((Providers.generate_response providers fallback_order (some preferred)).calls.count
            preferred) := by
  intro providers fallback_order preferred stub hne hl ha hfail hmem
  have hcalls := mgrLoop_allfail_calls providers hfail
      (Providers.providers_to_try fallback_order (some preferred)) none [] []
  have hatt : mgrAttemptable providers preferred = true := by
    simp [mgrAttemptable, hne, hl, ha]
  have hpt : Providers.providers_to_try fallback_order (some preferred) =
      preferred :: fallback_order := by
    simp [Providers.providers_to_try, hne]
  show 2 ≤ ((Providers.mgrLoop providers
      (Providers.providers_to_try fallback_order (some preferred)) none [] []).calls.count
        preferred)
  rw [hcalls, hpt, List.filter_cons_of_pos hatt]
  have hmemf : preferred ∈ fallback_order.filter (mgrAttemptable providers) :=
    List.mem_filter.mpr ⟨hmem, hatt⟩
  have hone : 0 < (fallback_order.filter (mgrAttemptable providers)).count preferred :=
    List.count_pos_iff.mpr hmemf
  simp only [List.nil_append, List.count_cons_self]
  omega

/-- Witness for C10: with `google_gemini` preferred, configured in the
computed fallback order, available and always failing, it is billed twice. -/
theorem C10_duplicate_billing_witness :
    2 ≤ ((Providers.generate_response exMgrProviders
            (Providers.determine_fallback_order exMgrProviders)
            (some "google_gemini")).calls.count "google_gemini") :=
  C10_duplicate_billing exMgrProviders (Providers.determine_fallback_order exMgrProviders)
    "google_gemini" ⟨true, Except.error "boom1"⟩
    (by decide) (by decide) rfl (by decide) (by decide)

/-- A failing `_handle_non_streaming_response` only reports the vendor's
error. -/
lemma vendor_path_error (w : Gateway.World) (cache : Gateway.Cache) (cfg : Gateway.GwProvider)
    (messages : List Message) (use_cache : Bool) (e : String) :
    (Gateway.handle_non_streaming_response w cache cfg messages use_cache).1 = Except.error e →
    w.vendor cfg.model = Except.error e := by
  intro h
  unfold Gateway.handle_non_streaming_response at h
  cases hv : w.vendor cfg.model with
  | error e' =>
    rw [hv] at h
    simp at h
    rw [h]
  | ok comp =>
    rw [hv] at h
    simp at h

/-- A failing `_call_provider` only reports the vendor's error: cache-layer
outcomes never surface as the raised error. -/
lemma call_provider_error (w : Gateway.World) (cache : Gateway.Cache) (cfg : Gateway.GwProvider)
    (messages : List Message) (use_cache : Bool) (e : String) :
    (Gateway.call_provider w cache cfg messages use_cache false).result = Except.error e →
    w.vendor cfg.model = Except.error e := by
  intro h
  unfold Gateway.call_provider at h
  by_cases hc : (use_cache && !false && w.cacheEnabled) = true
  · rw [if_pos hc] at h
    by_cases hg : w.getRaises = true
    · rw [if_pos hg] at h
      exact vendor_path_error w cache cfg messages use_cache e h
    · rw [if_neg hg] at h
      cases hm : Gateway.get_from_semantic_cache cache (Gateway.promptText messages)
          cfg.model with
      | some r => rw [hm] at h; simp at h
      | none => rw [hm] at h; exact vendor_path_error w cache cfg messages use_cache e h
  · rw [if_neg hc] at h
    exact vendor_path_error w cache cfg messages use_cache e h

/-- When the gateway loop exhausts all candidates with the aggregate
failure, the attempted providers are exactly the available candidates, in
order. -/
lemma gwLoop_allFailed_attempted (w : Gateway.World)
    (providers : List (String × Gateway.GwProvider)) (messages : List Message)
    (use_cache : Bool) :
    ∀ (cands : List String) (cache : Gateway.Cache) (att : List String) (n : Nat),
      (∀ name ∈ cands, (Gateway.lookupGw providers name).isSome) →
      (Gateway.gwLoop w providers messages use_cache cands cache att n).result =
        Except.error Gateway.GwError.allFailed →
      (Gateway.gwLoop w providers messages use_cache cands cache att n).attempted =
        att ++ cands.filter (Gateway.availableB providers) := by
  intro cands
  induction cands with
  | nil => intro cache att n _ _; simp [Gateway.gwLoop]
  | cons name rest ih =>
    intro cache att n hwf he
    cases hl : Gateway.lookupGw providers name with
    | none =>
      have hs := hwf name (List.mem_cons_self _ _)
      rw [hl] at hs
      simp at hs
    | some cfg =>
      have hav : Gateway.availableB providers name = cfg.is_available := by
        simp [Gateway.availableB, hl]
      by_cases ha : cfg.is_available = true
      · cases hr : (Gateway.call_provider w cache cfg messages use_cache false).result with
        | ok r => simp [Gateway.gwLoop, hl, ha, hr] at he
        | error e0 =>
          simp only [Gateway.gwLoop, hl, ha, if_true, hr] at he ⊢
          rw [ih (Gateway.call_provider w cache cfg messages use_cache false).cache
              (att ++ [name])
              (n + (Gateway.call_provider w cache cfg messages use_cache false).vendorCalls)
              (fun m hm => hwf m (List.mem_cons_of_mem _ hm)) he]
          rw [List.filter_cons_of_pos (by rw [hav, ha])]
          simp [List.append_assoc]
      · simp only [Gateway.gwLoop, hl] at he ⊢
        rw [if_neg ha] at he ⊢
        rw [ih cache att n (fun m hm => hwf m (List.mem_cons_of_mem _ hm)) he]
        rw [List.filter_cons_of_neg (by rw [hav]; exact ha)]

/-- Any error the gateway loop produces over known candidates is the
aggregate failure, and then every available candidate's vendor call failed. -/
lemma gwLoop_error_shape (w : Gateway.World)
    (providers : List (String × Gateway.GwProvider)) (messages : List Message)
    (use_cache : Bool) :
    ∀ (cands : List String) (cache : Gateway.Cache) (att : List String) (n : Nat),
      (∀ name ∈ cands, (Gateway.lookupGw providers name).isSome) →
      ∀ gwe,
        (Gateway.gwLoop w providers messages use_cache cands cache att n).result =
          Except.error gwe →
        gwe = Gateway.GwError.allFailed ∧
        ∀ name ∈ cands, ∀ cfg, Gateway.lookupGw providers name = some cfg →
          cfg.is_available = true → ∃ err, w.vendor cfg.model = Except.error err := by
  intro cands
  induction cands with
  | nil =>
    intro cache att n _ gwe he
    injection he with h
    exact ⟨h.symm, by intro name hmem; simp at hmem⟩
  | cons name rest ih =>
    intro cache att n hwf gwe he
    cases hl : Gateway.lookupGw providers name with
    | none =>
      have hs := hwf name (List.mem_cons_self _ _)
      rw [hl] at hs
      simp at hs
    | some cfg =>
      by_cases ha : cfg.is_available = true
      · cases hr : (Gateway.call_provider w cache cfg messages use_cache false).result with
        | ok r => simp [Gateway.gwLoop, hl, ha, hr] at he
        | error e0 =>
          simp only [Gateway.gwLoop, hl, ha, if_true, hr] at he
          have hrec := ih (Gateway.call_provider w cache cfg messages use_cache false).cache
              (att ++ [name])
              (n + (Gateway.call_provider w cache cfg messages use_cache false).vendorCalls)
              (fun m hm => hwf m (List.mem_cons_of_mem _ hm)) gwe he
          refine ⟨hrec.1, ?_⟩
          intro m hm cfg' hl' ha'
          rcases List.mem_cons.mp hm with hhd | htl
          · rw [hhd] at hl'
            rw [hl] at hl'
            injection hl' with hcfg
            rw [← hcfg]
            exact ⟨e0, call_provider_error w cache cfg messages use_cache e0 hr⟩
          · exact hrec.2 m htl cfg' hl' ha'
      · simp only [Gateway.gwLoop, hl] at he
        rw [if_neg ha] at he
        have hrec := ih cache att n (fun m hm => hwf m (List.mem_cons_of_mem _ hm)) gwe he
        refine ⟨hrec.1, ?_⟩
        intro m hm cfg' hl' ha'
        rcases List.mem_cons.mp hm with hhd | htl
        · rw [hhd] at hl'
          rw [hl] at hl'
          injection hl' with hcfg
          rw [← hcfg] at ha'
          exact absurd ha' ha
        · exact hrec.2 m htl cfg' hl' ha'

/-- C2 (counterexample): with `preferredProvider = "gemini"` set and known,
the configured fallback `openai` is available and would succeed, yet the
gateway attempts only `gemini` and raises the aggregate failure — the
remaining providers are not attempted after the preferred one, refuting the
claimed attempt sequence. -/
theorem C2_counterexample :
    exC2out.attempted = ["gemini"] ∧
    exC2out.attempted ≠ ["gemini", "openai"] ∧
    exC2out.result = Except.error Gateway.GwError.allFailed ∧
    Gateway.availableB exGwProviders "openai" = true ∧
    exGwWorldSplit.vendor "gpt-4o-mini" = Except.ok ⟨"ok from openai", 1, 2, 3⟩ := by
  decide

/-- C2 (amended): when `preferredProvider` is unset, a request that ends in
the aggregate failure has attempted exactly the available providers in their
configured order (unavailable ones are skipped with no record); when
`preferredProvider` is set, truthy and known, only that provider can be
attempted — the remaining fallback providers are not tried. -/
theorem C2_amended :
    ∀ (w : Gateway.World) (providers : List (String × Gateway.GwProvider))
      (fallback_order : List String) (messages : List Message) (use_cache : Bool)
      (cache : Gateway.Cache),
      ((∀ name ∈ fallback_order, (Gateway.lookupGw providers name).isSome) →
        (Gateway.generate_response w providers fallback_order none messages use_cache
            cache).result = Except.error Gateway.GwError.allFailed →
        (Gateway.generate_response w providers fallback_order none messages use_cache
            cache).attempted = fallback_order.filter (Gateway.availableB providers))
    ∧ (∀ p : String, p ≠ "" → (Gateway.lookupGw providers p).isSome →
        ((Gateway.generate_response w providers fallback_order (some p) messages use_cache
            cache).attempted = [] ∨
         (Gateway.generate_response w providers fallback_order (some p) messages use_cache
            cache).attempted = [p])) := by
  intro w providers fallback_order messages use_cache cache
  constructor
  · intro hwf he
    unfold Gateway.generate_response at he ⊢
    have hg : Gateway.gwOrder providers fallback_order none = fallback_order := rfl
    rw [hg] at he ⊢
    by_cases hord : fallback_order = []
    · rw [if_pos hord] at he
      injection he with h
      cases h
    · rw [if_neg hord] at he ⊢
      exact gwLoop_allFailed_attempted w providers messages use_cache fallback_order cache [] 0
        hwf he
  · intro p hp hps
    unfold Gateway.generate_response
    have hg : Gateway.gwOrder providers fallback_order (some p) = [p] := by
      simp [Gateway.gwOrder, hp, hps]
    rw [hg, if_neg (by simp)]
    obtain ⟨cfg, hcfg⟩ := Option.isSome_iff_exists.mp hps
    by_cases ha : cfg.is_available = true
    · cases hr : (Gateway.call_provider w cache cfg messages use_cache false).result with
      | ok r =>
        right
        simp [Gateway.gwLoop, hcfg, ha, hr]
      | error e0 =>
        right
        simp [Gateway.gwLoop, hcfg, ha, hr]
    · left
      simp [Gateway.gwLoop, hcfg, ha]

/-- Witness for C2 (amended): in the all-fail world the no-preference
request attempts the whole configured order; with a known preferred
provider the attempt list is at most that provider. -/
theorem C2_amended_witness :
    (Gateway.generate_response exGwWorldFail exGwProviders ["gemini", "openai"] none exMsgs
        true []).attempted = ["gemini", "openai"].filter (Gateway.availableB exGwProviders) ∧
    ((Gateway.generate_response exGwWorldFail exGwProviders ["gemini", "openai"] (some "gemini")
        exMsgs true []).attempted = [] ∨
     (Gateway.generate_response exGwWorldFail exGwProviders ["gemini", "openai"] (some "gemini")
        exMsgs true []).attempted = ["gemini"]) :=
  ⟨(C2_amended exGwWorldFail exGwProviders ["gemini", "openai"] exMsgs true []).1
      (by decide) (by decide),
   (C2_amended exGwWorldFail exGwProviders ["gemini", "openai"] exMsgs true []).2
      "gemini" (by decide) (by decide)⟩

/-- C6 (counterexample): with no providers configured, `generate_response`
raises the `ValueError("No LLM providers available")` before any attempt —
an observable error that is not the terminal aggregate failure. -/
theorem C6_counterexample :
    exC6out.result = Except.error Gateway.GwError.noProviders ∧
    Gateway.GwError.noProviders ≠ Gateway.GwError.allFailed ∧
    exC6out.attempted = [] := by
  decide

/-- C6 (amended): over a configuration whose attempt order resolves (the
`_init_providers` invariant), the only errors `generate_response` can raise
are the pre-loop "No LLM providers available" `ValueError` (exactly when the
attempt order is empty) and the terminal aggregate failure; a per-attempt
provider error never propagates — the aggregate failure implies every
available candidate's vendor call failed. -/
theorem C6_amended :
    ∀ (w : Gateway.World) (providers : List (String × Gateway.GwProvider))
      (fallback_order : List String) (preferred : Option String)
      (messages : List Message) (use_cache : Bool) (cache : Gateway.Cache),
      (∀ name ∈ Gateway.gwOrder providers fallback_order preferred,
          (Gateway.lookupGw providers name).isSome) →
      ∀ gwe,
        (Gateway.generate_response w providers fallback_order preferred messages use_cache
            cache).result = Except.error gwe →
        (gwe = Gateway.GwError.noProviders ∨ gwe = Gateway.GwError.allFailed) ∧
        (gwe = Gateway.GwError.noProviders →
          Gateway.gwOrder providers fallback_order preferred = []) ∧
        (gwe = Gateway.GwError.allFailed →
          ∀ name ∈ Gateway.gwOrder providers fallback_order preferred, ∀ cfg,
            Gateway.lookupGw providers name = some cfg → cfg.is_available = true →
            ∃ err, w.vendor cfg.model = Except.error err) := by
  intro w providers fallback_order preferred messages use_cache cache hwf gwe he
  unfold Gateway.generate_response at he
  by_cases hord : Gateway.gwOrder providers fallback_order preferred = []
  · rw [if_pos hord] at he
    injection he with h
    refine ⟨Or.inl h.symm, fun _ => hord, fun hco => ?_⟩
    rw [← h] at hco
    cases hco
  · rw [if_neg hord] at he
    have h := gwLoop_error_shape w providers messages use_cache
      (Gateway.gwOrder providers fallback_order preferred) cache [] 0 hwf gwe he
    refine ⟨Or.inr h.1, fun hno => ?_, fun _ => h.2⟩
    rw [hno] at h
    exact absurd h.1 (by decide)

/-- Witness for C6 (amended): in the all-fail world the only observable
error is the aggregate failure, and every available candidate's vendor
call indeed failed. -/
theorem C6_amended_witness :
    (Gateway.GwError.allFailed = Gateway.GwError.noProviders ∨
     Gateway.GwError.allFailed = Gateway.GwError.allFailed) ∧
    (Gateway.GwError.allFailed = Gateway.GwError.noProviders →
      Gateway.gwOrder exGwProviders ["gemini", "openai"] none = []) ∧
    (Gateway.GwError.allFailed = Gateway.GwError.allFailed →
      ∀ name ∈ Gateway.gwOrder exGwProviders ["gemini", "openai"] none, ∀ cfg,
        Gateway.lookupGw exGwProviders name = some cfg → cfg.is_available = true →
        ∃ err, exGwWorldFail.vendor cfg.model = Except.error err) :=
  C6_amended exGwWorldFail exGwProviders ["gemini", "openai"] none exMsgs true []
    (by decide) Gateway.GwError.allFailed (by decide)

/-- C5: with `useCache = true`, non-streaming, a working cache backend and a
succeeding provider, the first call invokes the vendor once and stores the
response; the second identical call is a cache hit that invokes no provider
and returns the identical response. -/
theorem C5_cache_idempotence :
    ∀ (w : Gateway.World) (cfg : Gateway.GwProvider) (messages : List Message)
      (comp : Gateway.Completion),
      w.cacheEnabled = true → w.getRaises = false → w.putRaises = false →
      w.vendor cfg.model = Except.ok comp →
      (Gateway.call_provider w [] cfg messages true false).vendorCalls = 1 ∧
      (Gateway.call_provider w (Gateway.call_provider w [] cfg messages true false).cache cfg
          messages true false).vendorCalls = 0 ∧
      (Gateway.call_provider w (Gateway.call_provider w [] cfg messages true false).cache cfg
          messages true false).result =
        (Gateway.call_provider w [] cfg messages true false).result ∧
      (Gateway.call_provider w [] cfg messages true false).result =
        Except.ok (Gateway.buildResult cfg comp) := by
  intro w cfg messages comp hce hgr hpr hv
  have h1 : Gateway.call_provider w [] cfg messages true false =
      ⟨Except.ok (Gateway.buildResult cfg comp),
       [(Gateway.promptText messages, Gateway.buildResult cfg comp)], 1⟩ := by
    simp [Gateway.call_provider, Gateway.handle_non_streaming_response,
      Gateway.get_from_semantic_cache, Gateway.store_in_semantic_cache, hce, hgr, hpr, hv]
  have h2 : Gateway.call_provider w
      [(Gateway.promptText messages, Gateway.buildResult cfg comp)] cfg messages true false =
      ⟨Except.ok (Gateway.buildResult cfg comp),
       [(Gateway.promptText messages, Gateway.buildResult cfg comp)], 0⟩ := by
    simp [Gateway.call_provider, Gateway.get_from_semantic_cache, hce, hgr]
  simp [h1, h2]

/-- Witness for C5 at a concrete provider, request and world. -/
theorem C5_cache_idempotence_witness :
    (Gateway.call_provider exW5 [] exCfgM1 exMsgs true false).vendorCalls = 1 ∧
    (Gateway.call_provider exW5 (Gateway.call_provider exW5 [] exCfgM1 exMsgs true false).cache
        exCfgM1 exMsgs true false).vendorCalls = 0 ∧
    (Gateway.call_provider exW5 (Gateway.call_provider exW5 [] exCfgM1 exMsgs true false).cache
        exCfgM1 exMsgs true false).result =
      (Gateway.call_provider exW5 [] exCfgM1 exMsgs true false).result ∧
    (Gateway.call_provider exW5 [] exCfgM1 exMsgs true false).result =
      Except.ok (Gateway.buildResult exCfgM1 ⟨"hi", 1, 2, 3⟩) :=
  C5_cache_idempotence exW5 exCfgM1 exMsgs ⟨"hi", 1, 2, 3⟩ rfl rfl rfl (by decide)

/-- C8: a cache backend failure is never propagated: a failing lookup is
treated as a miss (the vendor is called and the response returned), and a
failing write still returns the response with the cache unchanged. -/
theorem C8_cache_failure_degrades_to_miss :
    ∀ (w : Gateway.World) (cache : Gateway.Cache) (cfg : Gateway.GwProvider)
      (messages : List Message) (comp : Gateway.Completion),
      w.cacheEnabled = true →
      w.vendor cfg.model = Except.ok comp →
      ((w.getRaises = true →
          (Gateway.call_provider w cache cfg messages true false).result =
            Except.ok (Gateway.buildResult cfg comp) ∧
          (Gateway.call_provider w cache cfg messages true false).vendorCalls = 1) ∧
       (w.getRaises = false → w.putRaises = true →
          Gateway.get_from_semantic_cache cache (Gateway.promptText messages) cfg.model =
            none →
          (Gateway.call_provider w cache cfg messages true false).result =
            Except.ok (Gateway.buildResult cfg comp) ∧
          (Gateway.call_provider w cache cfg messages true false).cache = cache ∧
          (Gateway.call_provider w cache cfg messages true false).vendorCalls = 1)) := by
  intro w cache cfg messages comp hce hv
  constructor
  · intro hgr
    simp [Gateway.call_provider, Gateway.handle_non_streaming_response, hce, hgr, hv]
  · intro hgr hpr hmiss
    simp [Gateway.call_provider, Gateway.handle_non_streaming_response, hce, hgr, hpr,
      hmiss, hv]

/-- Witness for C8 at concrete worlds with a failing lookup and a failing
write. -/
theorem C8_cache_failure_degrades_to_miss_witness :
    ((Gateway.call_provider exW8a [] exCfgM1 exMsgs true false).result =
        Except.ok (Gateway.buildResult exCfgM1 ⟨"hi", 1, 2, 3⟩) ∧
     (Gateway.call_provider exW8a [] exCfgM1 exMsgs true false).vendorCalls = 1) ∧
    ((Gateway.call_provider exW8b [] exCfgM1 exMsgs true false).result =
        Except.ok (Gateway.buildResult exCfgM1 ⟨"hi", 1, 2, 3⟩) ∧
     (Gateway.call_provider exW8b [] exCfgM1 exMsgs true false).cache = [] ∧
     (Gateway.call_provider exW8b [] exCfgM1 exMsgs true false).vendorCalls = 1) :=
  ⟨(C8_cache_failure_degrades_to_miss exW8a [] exCfgM1 exMsgs ⟨"hi", 1, 2, 3⟩ rfl rfl).1 rfl,
   (C8_cache_failure_degrades_to_miss exW8b [] exCfgM1 exMsgs ⟨"hi", 1, 2, 3⟩ rfl rfl).2
     rfl rfl rfl⟩
